import Mathlib

/-!
Verification of `src/analysis.py` (grasp-pr repository).

The script is a linear sequence of pandas/matplotlib calls:
read two benchmark CSV files, then for each of the two TSP instances
(bays29, brg180) build a two-subplot figure, save it as a PNG and close it.

We shallowly embed the script as a list of commands interpreted by a
small-step function over an explicit state: an association-list filesystem,
the bound dataframes, and the stack of open matplotlib figures (head =
current figure).  Numeric cells are modelled as rationals.
-/

/-- A parsed benchmark-results table (a pandas DataFrame as loaded by
`pd.read_csv`): a header of column names and rows of numeric cells.
All rows of a proper CSV have the same length as the header. -/
structure Table where
  header : List String
  rows : List (List Rat)
deriving DecidableEq, Repr

/-- Errors the script can raise: `pd.read_csv` on a missing path raises
`FileNotFoundError`; `df[c]` with `c` not a column raises `KeyError c`;
reading a non-CSV file raises a parse error; using an unbound dataframe
variable is a modelling-level error that the script never reaches. -/
inductive Err where
  | fileNotFound (path : String)
  | keyError (col : String)
  | parseError (path : String)
  | noVar (v : Nat)
deriving DecidableEq, Repr

/-- One plotted line series: its legend label and the x/y value sequences,
in the order they were handed to `plt.plot`. -/
structure Series where
  label : String
  xs : List Rat
  ys : List Rat
deriving DecidableEq, Repr

/-- One subplot (axes): its accumulated series and decorations. -/
structure Subplot where
  series : List Series
  xlab : String
  ylab : String
  heading : String
  legendOn : Bool
  gridOn : Bool
deriving DecidableEq, Repr

/-- A matplotlib figure as the script uses it: a fixed size, the two
side-by-side subplots of the `plt.subplot(1, 2, k)` grid, the index of the
current subplot, and whether `tight_layout` has been applied. -/
structure Figure where
  width : Rat
  height : Rat
  sub1 : Subplot
  sub2 : Subplot
  cur : Nat
  tight : Bool
deriving DecidableEq, Repr

/-- An empty subplot, as created by `plt.subplot`. -/
def emptySub : Subplot := ⟨[], "", "", "", false, false⟩

/-- A fresh figure, as created by `plt.figure(figsize=(w, h))`. -/
def newFig (w h : Rat) : Figure := ⟨w, h, emptySub, emptySub, 1, false⟩

/-- Matplotlib's default figure, were one implicitly created. -/
def defaultFig : Figure := newFig (32/5) (24/5)

/-- A file in the working directory: either a CSV (already parsed into a
table) or a PNG serialized from a figure. -/
inductive FileData where
  | csv (t : Table)
  | png (g : Figure)
deriving DecidableEq, Repr

/-- The commands of the script, one per pyplot/pandas call. -/
inductive Cmd where
  | readCsv (path : String) (v : Nat)
  | figure (w h : Rat)
  | subplot (r c k : Nat)
  | plot (v : Nat) (xcol ycol lab : String)
  | xlabel (s : String)
  | ylabel (s : String)
  | title (s : String)
  | legend
  | grid (b : Bool)
  | tightLayout
  | savefig (path : String)
  | close
deriving DecidableEq, Repr

/-- Interpreter state: the working-directory filesystem, the dataframe
variables bound so far, and the stack of open figures (head = current). -/
structure St where
  fs : List (String × FileData)
  vars : List (Nat × Table)
  figs : List Figure
deriving DecidableEq, Repr

/-- Look a path up in the filesystem. -/
def lookupFS : List (String × FileData) → String → Option FileData
  | [], _ => none
  | (k, d) :: rest, p => if k = p then some d else lookupFS rest p

/-- Write a file: overwrite the entry at the path, or append a new one. -/
def updateFS : List (String × FileData) → String → FileData → List (String × FileData)
  | [], p, d => [(p, d)]
  | (k, d') :: rest, p, d => if k = p then (p, d) :: rest else (k, d') :: updateFS rest p d

/-- Look a dataframe variable up. -/
def lookupVar : List (Nat × Table) → Nat → Option Table
  | [], _ => none
  | (k, t) :: rest, v => if k = v then some t else lookupVar rest v

/-- Index of a column name in a header (`df[c]` column resolution). -/
def colIdx : List String → String → Option Nat
  | [], _ => none
  | h :: t, c => if h = c then some 0 else (colIdx t c).map (· + 1)

/-- The values of column `i`, one per row, in row order (no sorting). -/
def colValsAt (t : Table) (i : Nat) : List Rat :=
  t.rows.map (fun r => List.getD r i 0)

/-- `df[c]`: the column's values in row order, or a `KeyError`. -/
def getCol (t : Table) (c : String) : Except Err (List Rat) :=
  match colIdx t.header c with
  | none => .error (.keyError c)
  | some i => .ok (colValsAt t i)

/-- Apply an edit to the current figure (pyplot implicitly creates a
default figure when none is open; the script never relies on that). -/
def withCurFig (s : St) (f : Figure → Figure) : St :=
  match s.figs with
  | [] => { s with figs := [f defaultFig] }
  | g :: rest => { s with figs := f g :: rest }

/-- Apply an edit to the current subplot of a figure. -/
def onCurSub (f : Subplot → Subplot) (g : Figure) : Figure :=
  if g.cur = 1 then { g with sub1 := f g.sub1 } else { g with sub2 := f g.sub2 }

/-- Append a series to the current subplot (`plt.plot(xs, ys, label=l)`). -/
def addSeries (lab : String) (xs ys : List Rat) : Figure → Figure :=
  onCurSub (fun sp => { sp with series := sp.series ++ [⟨lab, xs, ys⟩] })

/-- One step of the script: execute a single library call. -/
def step (s : St) : Cmd → Except Err St
  | .readCsv path v =>
    match lookupFS s.fs path with
    | none => .error (.fileNotFound path)
    | some (.csv t) => .ok { s with vars := (v, t) :: s.vars }
    | some (.png _) => .error (.parseError path)
  | .figure w h => .ok { s with figs := newFig w h :: s.figs }
  | .subplot _ _ k => .ok (withCurFig s (fun g => { g with cur := k }))
  | .plot v xcol ycol lab =>
    match lookupVar s.vars v with
    | none => .error (.noVar v)
    | some t =>
      match getCol t xcol with
      | .error e => .error e
      | .ok xs =>
        match getCol t ycol with
        | .error e => .error e
        | .ok ys => .ok (withCurFig s (addSeries lab xs ys))
  | .xlabel l => .ok (withCurFig s (onCurSub (fun sp => { sp with xlab := l })))
  | .ylabel l => .ok (withCurFig s (onCurSub (fun sp => { sp with ylab := l })))
  | .title l => .ok (withCurFig s (onCurSub (fun sp => { sp with heading := l })))
  | .legend => .ok (withCurFig s (onCurSub (fun sp => { sp with legendOn := true })))
  | .grid b => .ok (withCurFig s (onCurSub (fun sp => { sp with gridOn := b })))
  | .tightLayout => .ok (withCurFig s (fun g => { g with tight := true }))
  | .savefig path =>
    match s.figs with
    | [] => .ok { s with fs := updateFS s.fs path (.png defaultFig) }
    | g :: _ => .ok { s with fs := updateFS s.fs path (.png g) }
  | .close => .ok { s with figs := s.figs.tail }

/-- Run commands in order, stopping at the first error; return the state
reached together with the error, if any (an uncaught Python exception
aborts the rest of the script). -/
def runCmds (s : St) : List Cmd → St × Option Err
  | [] => (s, none)
  | c :: cs =>
    match step s c with
    | .ok s' => runCmds s' cs
    | .error e => (s, some e)

/-- The per-instance render block of the script (lines 13–37 for bays29 and
lines 39–64 for brg180 are this block verbatim, with the dataframe
variable, the two titles and the output path instantiated). -/
def renderCmds (v : Nat) (dTitle tTitle outPath : String) : List Cmd :=
  [ .figure 14 6,
    .subplot 1 2 1,
    .plot v "Run" "2-opt Distance" "2-opt Distance",
    .plot v "Run" "Swap Distance" "Swap Distance",
    .xlabel "Run",
    .ylabel "Distance",
    .title dTitle,
    .legend,
    .grid true,
    .subplot 1 2 2,
    .plot v "Run" "2-opt Time (µs)" "2-opt Time (µs)",
    .plot v "Run" "Swap Time (µs)" "Swap Time (µs)",
    .xlabel "Run",
    .ylabel "Time (µs)",
    .title tTitle,
    .legend,
    .grid true,
    .tightLayout,
    .savefig outPath,
    .close ]

/-- Lines 9–10: the two `pd.read_csv` calls, bays29 first.
Variable 0 is `df_bays29`, variable 1 is `df_brg180`. -/
def readCmds : List Cmd :=
  [ .readCsv "bays29_benchmark_results.csv" 0,
    .readCsv "brg180_benchmark_results.csv" 1 ]

/-- The bays29 render block (lines 13–37). -/
def bays29Cmds : List Cmd :=
  renderCmds 0 "Distances for bays29 Instance" "Times for bays29 Instance"
    "bays29_benchmark.png"

/-- The brg180 render block (lines 39–64). -/
def brg180Cmds : List Cmd :=
  renderCmds 1 "Distances for brg180 Instance" "Times for brg180 Instance"
    "brg180_benchmark.png"

/-- The whole script, top to bottom. -/
def analysisCmds : List Cmd := readCmds ++ bays29Cmds ++ brg180Cmds

/-- Run `analysis.py` on a working directory: start with no variables and
no open figures and execute the script. -/
def runAnalysis (fs0 : List (String × FileData)) : St × Option Err :=
  runCmds ⟨fs0, [], []⟩ analysisCmds

/-- The five required column names, in the order of a proper input header. -/
def stdHeader : List String :=
  ["Run", "2-opt Distance", "Swap Distance", "2-opt Time (µs)", "Swap Time (µs)"]

/-- A working directory holding exactly the two input CSVs. -/
def stdFS (tb tr : Table) : List (String × FileData) :=
  [ ("bays29_benchmark_results.csv", .csv tb),
    ("brg180_benchmark_results.csv", .csv tr) ]

/-- The figure the render block produces from a table whose five required
columns sit at indices `i1..i5`. -/
def renderedFig (t : Table) (i1 i2 i3 i4 i5 : Nat) (dTitle tTitle : String) : Figure :=
  ⟨14, 6,
   ⟨[⟨"2-opt Distance", colValsAt t i1, colValsAt t i2⟩,
     ⟨"Swap Distance", colValsAt t i1, colValsAt t i3⟩],
    "Run", "Distance", dTitle, true, true⟩,
   ⟨[⟨"2-opt Time (µs)", colValsAt t i1, colValsAt t i4⟩,
     ⟨"Swap Time (µs)", colValsAt t i1, colValsAt t i5⟩],
    "Run", "Time (µs)", tTitle, true, true⟩,
   2, true⟩

/-- The saved figure inside a PNG file at a path, when one is there. -/
def savedFig (fs : List (String × FileData)) (p : String) : Option Figure :=
  match lookupFS fs p with
  | some (.png g) => some g
  | _ => none

/-- The figure the bays29 block saves, given the table's column indices. -/
def bays29Fig (t : Table) (i1 i2 i3 i4 i5 : Nat) : Figure :=
  renderedFig t i1 i2 i3 i4 i5 "Distances for bays29 Instance" "Times for bays29 Instance"

/-- The figure the brg180 block saves, given the table's column indices. -/
def brg180Fig (t : Table) (i1 i2 i3 i4 i5 : Nat) : Figure :=
  renderedFig t i1 i2 i3 i4 i5 "Distances for brg180 Instance" "Times for brg180 Instance"

/-- The two-run example table of the specification's scenario (section 8). -/
def tEx : Table := ⟨stdHeader, [[1, 100, 110, 50, 40], [2, 95, 105, 55, 42]]⟩

/-- A malformed table: the required column `Swap Distance` is absent. -/
def tNoSwapD : Table :=
  ⟨["Run", "2-opt Distance", "2-opt Time (µs)", "Swap Time (µs)"], [[1, 100, 50, 40]]⟩

/-- A header-only table: the five required columns and zero data rows. -/
def tEmpty : Table := ⟨stdHeader, []⟩

/-! ## Basic lemmas about the interpreter -/

theorem withCurFig_fs (s : St) (f : Figure → Figure) : (withCurFig s f).fs = s.fs := by
  rcases s with ⟨fs, vars, figs⟩
  cases figs <;> rfl

theorem withCurFig_vars (s : St) (f : Figure → Figure) : (withCurFig s f).vars = s.vars := by
  rcases s with ⟨fs, vars, figs⟩
  cases figs <;> rfl

theorem runCmds_nil (s : St) : runCmds s [] = (s, none) := rfl

theorem runCmds_cons (s : St) (c : Cmd) (cs : List Cmd) :
    runCmds s (c :: cs) =
      match step s c with
      | .ok s' => runCmds s' cs
      | .error e => (s, some e) := rfl

theorem runCmds_append_ok : ∀ (cs : List Cmd) (s s' : St), runCmds s cs = (s', none) →
    ∀ ds, runCmds s (cs ++ ds) = runCmds s' ds := by
  intro cs
  induction cs with
  | nil =>
    intro s s' h ds
    simp only [runCmds] at h
    cases h
    simp
  | cons c cs ih =>
    intro s s' h ds
    rw [List.cons_append, runCmds_cons]
    rw [runCmds_cons] at h
    cases hc : step s c with
    | ok s1 =>
      rw [hc] at h
      simp only []
      exact ih s1 s' h ds
    | error e =>
      rw [hc] at h
      simp at h

theorem runCmds_append_err : ∀ (cs : List Cmd) (s s' : St) (e : Err),
    runCmds s cs = (s', some e) →
    ∀ ds, runCmds s (cs ++ ds) = (s', some e) := by
  intro cs
  induction cs with
  | nil =>
    intro s s' e h ds
    simp [runCmds] at h
  | cons c cs ih =>
    intro s s' e h ds
    rw [List.cons_append, runCmds_cons]
    rw [runCmds_cons] at h
    cases hc : step s c with
    | ok s1 =>
      rw [hc] at h
      simp only []
      exact ih s1 s' e h ds
    | error e' =>
      rw [hc] at h
      simp only [] at h ⊢
      exact h

/-! ## Filesystem lemmas -/

theorem lookupFS_updateFS_self (fs : List (String × FileData)) (p : String) (d : FileData) :
    lookupFS (updateFS fs p d) p = some d := by
  induction fs with
  | nil => simp [updateFS, lookupFS]
  | cons kv rest ih =>
    rcases kv with ⟨k, d'⟩
    by_cases hk : k = p
    · simp [updateFS, lookupFS, hk]
    · simp [updateFS, lookupFS, hk, ih]

theorem lookupFS_updateFS_ne (fs : List (String × FileData)) (p q : String) (d : FileData)
    (h : q ≠ p) : lookupFS (updateFS fs p d) q = lookupFS fs q := by
  induction fs with
  | nil => simp [updateFS, lookupFS, Ne.symm h]
  | cons kv rest ih =>
    rcases kv with ⟨k, d'⟩
    by_cases hk : k = p
    · subst hk
      simp [updateFS, lookupFS, Ne.symm h]
    · simp [updateFS, lookupFS, hk, ih]

theorem updateFS_updateFS_self (fs : List (String × FileData)) (p : String) (d d' : FileData) :
    updateFS (updateFS fs p d) p d' = updateFS fs p d' := by
  induction fs with
  | nil => simp [updateFS]
  | cons kv rest ih =>
    rcases kv with ⟨k, dd⟩
    by_cases hk : k = p
    · simp [updateFS, hk]
    · simp [updateFS, hk, ih]

/-! ## Frame lemmas: only `savefig` writes to the filesystem -/

theorem lookupFS_step_ok (s s' : St) (c : Cmd) (p : String)
    (h : step s c = .ok s') (hp : ∀ q, c = Cmd.savefig q → q ≠ p) :
    lookupFS s'.fs p = lookupFS s.fs p := by
  cases c with
  | readCsv path v =>
    simp only [step] at h
    split at h
    · exact Except.noConfusion h
    · simp only [Except.ok.injEq] at h
      subst h
      rfl
    · exact Except.noConfusion h
  | figure w hgt =>
    simp only [step, Except.ok.injEq] at h
    subst h
    rfl
  | subplot r cc k =>
    simp only [step, Except.ok.injEq] at h
    subst h
    exact congrArg (fun fs => lookupFS fs p) (withCurFig_fs _ _)
  | plot v xc yc lab =>
    simp only [step] at h
    split at h
    · exact Except.noConfusion h
    · split at h
      · exact Except.noConfusion h
      · split at h
        · exact Except.noConfusion h
        · simp only [Except.ok.injEq] at h
          subst h
          exact congrArg (fun fs => lookupFS fs p) (withCurFig_fs _ _)
  | xlabel l =>
    simp only [step, Except.ok.injEq] at h
    subst h
    exact congrArg (fun fs => lookupFS fs p) (withCurFig_fs _ _)
  | ylabel l =>
    simp only [step, Except.ok.injEq] at h
    subst h
    exact congrArg (fun fs => lookupFS fs p) (withCurFig_fs _ _)
  | title l =>
    simp only [step, Except.ok.injEq] at h
    subst h
    exact congrArg (fun fs => lookupFS fs p) (withCurFig_fs _ _)
  | legend =>
    simp only [step, Except.ok.injEq] at h
    subst h
    exact congrArg (fun fs => lookupFS fs p) (withCurFig_fs _ _)
  | grid b =>
    simp only [step, Except.ok.injEq] at h
    subst h
    exact congrArg (fun fs => lookupFS fs p) (withCurFig_fs _ _)
  | tightLayout =>
    simp only [step, Except.ok.injEq] at h
    subst h
    exact congrArg (fun fs => lookupFS fs p) (withCurFig_fs _ _)
  | savefig q =>
    have hq : q ≠ p := hp q rfl
    simp only [step] at h
    split at h
    · simp only [Except.ok.injEq] at h
      subst h
      exact lookupFS_updateFS_ne _ _ _ _ (Ne.symm hq)
    · simp only [Except.ok.injEq] at h
      subst h
      exact lookupFS_updateFS_ne _ _ _ _ (Ne.symm hq)
  | close =>
    simp only [step, Except.ok.injEq] at h
    subst h
    rfl

theorem lookupFS_runCmds (cs : List Cmd) : ∀ (s : St) (p : String),
    (∀ q, Cmd.savefig q ∈ cs → q ≠ p) →
    lookupFS (runCmds s cs).1.fs p = lookupFS s.fs p := by
  induction cs with
  | nil =>
    intro s p _
    rfl
  | cons c cs ih =>
    intro s p hp
    rw [runCmds_cons]
    cases hc : step s c with
    | ok s1 =>
      simp only []
      rw [ih s1 p (fun q hq => hp q (List.mem_cons_of_mem _ hq))]
      exact lookupFS_step_ok s s1 c p hc
        (fun q hcq => hp q (by rw [hcq]; exact List.mem_cons_self _ _))
    | error e =>
      rfl

/-! ## Evaluation of the script's blocks -/

theorem runCmds_renderCmds (s : St) (t : Table) (v : Nat) (i1 i2 i3 i4 i5 : Nat)
    (dT tT oP : String)
    (hv : lookupVar s.vars v = some t)
    (h1 : colIdx t.header "Run" = some i1)
    (h2 : colIdx t.header "2-opt Distance" = some i2)
    (h3 : colIdx t.header "Swap Distance" = some i3)
    (h4 : colIdx t.header "2-opt Time (µs)" = some i4)
    (h5 : colIdx t.header "Swap Time (µs)" = some i5) :
    runCmds s (renderCmds v dT tT oP)
      = ({ s with fs := updateFS s.fs oP (.png (renderedFig t i1 i2 i3 i4 i5 dT tT)) }, none) := by
  simp [renderCmds, runCmds, step, getCol, hv, h1, h2, h3, h4, h5, withCurFig, onCurSub,
    addSeries, newFig, emptySub, renderedFig]

theorem runCmds_readCmds (fs0 : List (String × FileData)) (tb tr : Table)
    (hb : lookupFS fs0 "bays29_benchmark_results.csv" = some (.csv tb))
    (hr : lookupFS fs0 "brg180_benchmark_results.csv" = some (.csv tr)) :
    runCmds ⟨fs0, [], []⟩ readCmds = (⟨fs0, [(1, tr), (0, tb)], []⟩, none) := by
  simp [readCmds, runCmds, step, hb, hr]

/-- Full evaluation of a successful run: both CSVs exist with all five
required columns, so the script writes the two PNGs and terminates clean. -/
theorem runAnalysis_ok
    (fs0 : List (String × FileData)) (tb tr : Table)
    (i1 i2 i3 i4 i5 j1 j2 j3 j4 j5 : Nat)
    (hb : lookupFS fs0 "bays29_benchmark_results.csv" = some (.csv tb))
    (hr : lookupFS fs0 "brg180_benchmark_results.csv" = some (.csv tr))
    (h1 : colIdx tb.header "Run" = some i1)
    (h2 : colIdx tb.header "2-opt Distance" = some i2)
    (h3 : colIdx tb.header "Swap Distance" = some i3)
    (h4 : colIdx tb.header "2-opt Time (µs)" = some i4)
    (h5 : colIdx tb.header "Swap Time (µs)" = some i5)
    (hh1 : colIdx tr.header "Run" = some j1)
    (hh2 : colIdx tr.header "2-opt Distance" = some j2)
    (hh3 : colIdx tr.header "Swap Distance" = some j3)
    (hh4 : colIdx tr.header "2-opt Time (µs)" = some j4)
    (hh5 : colIdx tr.header "Swap Time (µs)" = some j5) :
    runAnalysis fs0 =
      (⟨updateFS (updateFS fs0 "bays29_benchmark.png" (.png (bays29Fig tb i1 i2 i3 i4 i5)))
          "brg180_benchmark.png" (.png (brg180Fig tr j1 j2 j3 j4 j5)),
        [(1, tr), (0, tb)], []⟩, none) := by
  have hread := runCmds_readCmds fs0 tb tr hb hr
  have hb29 : runCmds ⟨fs0, [(1, tr), (0, tb)], []⟩ bays29Cmds =
      (⟨updateFS fs0 "bays29_benchmark.png" (.png (bays29Fig tb i1 i2 i3 i4 i5)),
        [(1, tr), (0, tb)], []⟩, none) := by
    have h := runCmds_renderCmds ⟨fs0, [(1, tr), (0, tb)], []⟩ tb 0 i1 i2 i3 i4 i5
      "Distances for bays29 Instance" "Times for bays29 Instance" "bays29_benchmark.png"
      (by simp [lookupVar]) h1 h2 h3 h4 h5
    simpa [bays29Cmds, bays29Fig] using h
  have hbrg : runCmds ⟨updateFS fs0 "bays29_benchmark.png" (.png (bays29Fig tb i1 i2 i3 i4 i5)),
        [(1, tr), (0, tb)], []⟩ brg180Cmds =
      (⟨updateFS (updateFS fs0 "bays29_benchmark.png" (.png (bays29Fig tb i1 i2 i3 i4 i5)))
          "brg180_benchmark.png" (.png (brg180Fig tr j1 j2 j3 j4 j5)),
        [(1, tr), (0, tb)], []⟩, none) := by
    have h := runCmds_renderCmds
      ⟨updateFS fs0 "bays29_benchmark.png" (.png (bays29Fig tb i1 i2 i3 i4 i5)),
        [(1, tr), (0, tb)], []⟩ tr 1 j1 j2 j3 j4 j5
      "Distances for brg180 Instance" "Times for brg180 Instance" "brg180_benchmark.png"
      (by simp [lookupVar]) hh1 hh2 hh3 hh4 hh5
    simpa [brg180Cmds, brg180Fig] using h
  have hpre : runCmds ⟨fs0, [], []⟩ (readCmds ++ bays29Cmds) =
      (⟨updateFS fs0 "bays29_benchmark.png" (.png (bays29Fig tb i1 i2 i3 i4 i5)),
        [(1, tr), (0, tb)], []⟩, none) :=
    (runCmds_append_ok readCmds _ _ hread bays29Cmds).trans hb29
  have hall : runAnalysis fs0 = runCmds ⟨updateFS fs0 "bays29_benchmark.png"
        (.png (bays29Fig tb i1 i2 i3 i4 i5)), [(1, tr), (0, tb)], []⟩ brg180Cmds := by
    unfold runAnalysis analysisCmds
    exact runCmds_append_ok (readCmds ++ bays29Cmds) _ _ hpre brg180Cmds
  rw [hall, hbrg]

/-- Overwriting a file with the data it already holds changes nothing. -/
theorem updateFS_of_lookup_eq (fs : List (String × FileData)) (p : String) (d : FileData)
    (h : lookupFS fs p = some d) : updateFS fs p d = fs := by
  induction fs with
  | nil => simp [lookupFS] at h
  | cons kv rest ih =>
    rcases kv with ⟨k, d'⟩
    by_cases hk : k = p
    · subst hk
      simp [lookupFS] at h
      simp [updateFS, h]
    · simp [lookupFS, hk] at h
      simp [updateFS, hk, ih h]

/-- Evaluation of a render block whose table misses at least one required
column: the block aborts with a `KeyError` naming an absent column, and the
filesystem is untouched (the failure precedes the `savefig`). -/
theorem runCmds_renderCmds_err (s : St) (t : Table) (v : Nat) (dT tT oP : String)
    (hv : lookupVar s.vars v = some t)
    (hm : colIdx t.header "Run" = none ∨ colIdx t.header "2-opt Distance" = none ∨
      colIdx t.header "Swap Distance" = none ∨ colIdx t.header "2-opt Time (µs)" = none ∨
      colIdx t.header "Swap Time (µs)" = none) :
    ∃ c, (runCmds s (renderCmds v dT tT oP)).2 = some (Err.keyError c) ∧
      colIdx t.header c = none ∧
      (runCmds s (renderCmds v dT tT oP)).1.fs = s.fs := by
  rcases h1 : colIdx t.header "Run" with _ | i1
  · exact ⟨"Run",
      by simp [renderCmds, runCmds, step, getCol, hv, h1, withCurFig, onCurSub], h1,
      by simp [renderCmds, runCmds, step, getCol, hv, h1, withCurFig, onCurSub]⟩
  rcases h2 : colIdx t.header "2-opt Distance" with _ | i2
  · exact ⟨"2-opt Distance",
      by simp [renderCmds, runCmds, step, getCol, hv, h1, h2, withCurFig, onCurSub], h2,
      by simp [renderCmds, runCmds, step, getCol, hv, h1, h2, withCurFig, onCurSub]⟩
  rcases h3 : colIdx t.header "Swap Distance" with _ | i3
  · exact ⟨"Swap Distance",
      by simp [renderCmds, runCmds, step, getCol, hv, h1, h2, h3, withCurFig, onCurSub,
        addSeries],
      h3,
      by simp [renderCmds, runCmds, step, getCol, hv, h1, h2, h3, withCurFig, onCurSub,
        addSeries]⟩
  rcases h4 : colIdx t.header "2-opt Time (µs)" with _ | i4
  · exact ⟨"2-opt Time (µs)",
      by simp [renderCmds, runCmds, step, getCol, hv, h1, h2, h3, h4, withCurFig, onCurSub,
        addSeries],
      h4,
      by simp [renderCmds, runCmds, step, getCol, hv, h1, h2, h3, h4, withCurFig, onCurSub,
        addSeries]⟩
  rcases h5 : colIdx t.header "Swap Time (µs)" with _ | i5
  · exact ⟨"Swap Time (µs)",
      by simp [renderCmds, runCmds, step, getCol, hv, h1, h2, h3, h4, h5, withCurFig,
        onCurSub, addSeries],
      h5,
      by simp [renderCmds, runCmds, step, getCol, hv, h1, h2, h3, h4, h5, withCurFig,
        onCurSub, addSeries]⟩
  · simp [h1, h2, h3, h4, h5] at hm

/-! ## The claims -/

/-- Claim C2: if at least one of the two input CSV paths does not exist
(inputs, when present, being CSV files), the program fails with a
`FileNotFoundError` naming a nonexistent path and writes no output file:
the filesystem is left exactly as it was. -/
theorem C2_missing_input_aborts_without_output (fs0 : List (String × FileData))
    (hcsv : lookupFS fs0 "bays29_benchmark_results.csv" = none ∨
      ∃ t, lookupFS fs0 "bays29_benchmark_results.csv" = some (.csv t))
    (hmiss : lookupFS fs0 "bays29_benchmark_results.csv" = none ∨
      lookupFS fs0 "brg180_benchmark_results.csv" = none) :
    (∃ p, (runAnalysis fs0).2 = some (Err.fileNotFound p) ∧ lookupFS fs0 p = none) ∧
    (runAnalysis fs0).1.fs = fs0 := by
  rcases hmiss with hb | hr
  · refine ⟨⟨"bays29_benchmark_results.csv", ?_, hb⟩, ?_⟩
    · simp [runAnalysis, analysisCmds, readCmds, runCmds, step, hb]
    · simp [runAnalysis, analysisCmds, readCmds, runCmds, step, hb]
  · rcases hcsv with hb | ⟨t, hb⟩
    · refine ⟨⟨"bays29_benchmark_results.csv", ?_, hb⟩, ?_⟩
      · simp [runAnalysis, analysisCmds, readCmds, runCmds, step, hb]
      · simp [runAnalysis, analysisCmds, readCmds, runCmds, step, hb]
    · refine ⟨⟨"brg180_benchmark_results.csv", ?_, hr⟩, ?_⟩
      · simp [runAnalysis, analysisCmds, readCmds, runCmds, step, hb, hr]
      · simp [runAnalysis, analysisCmds, readCmds, runCmds, step, hb, hr]

theorem C2_witness :
    (∃ p, (runAnalysis []).2 = some (Err.fileNotFound p) ∧ lookupFS [] p = none) ∧
    (runAnalysis []).1.fs = [] :=
  C2_missing_input_aborts_without_output [] (Or.inl rfl) (Or.inl rfl)

/-- Claim C9: both CSVs are loaded (lines 9–10) before any chart rendering
or output writing begins.  In particular, when the bays29 input exists but
the brg180 input does not, the run aborts at the second `read_csv` with the
filesystem untouched: not even the bays29 PNG is written. -/
theorem C9_inputs_read_before_any_write (fs0 : List (String × FileData)) (tb : Table)
    (hb : lookupFS fs0 "bays29_benchmark_results.csv" = some (.csv tb))
    (hr : lookupFS fs0 "brg180_benchmark_results.csv" = none) :
    runAnalysis fs0 = (⟨fs0, [(0, tb)], []⟩, some (Err.fileNotFound "brg180_benchmark_results.csv")) ∧
    lookupFS (runAnalysis fs0).1.fs "bays29_benchmark.png" = lookupFS fs0 "bays29_benchmark.png" ∧
    analysisCmds = readCmds ++ (bays29Cmds ++ brg180Cmds) := by
  have h : runAnalysis fs0 =
      (⟨fs0, [(0, tb)], []⟩, some (Err.fileNotFound "brg180_benchmark_results.csv")) := by
    simp [runAnalysis, analysisCmds, readCmds, runCmds, step, hb, hr]
  exact ⟨h, by rw [h], by simp [analysisCmds]⟩

theorem C9_witness :
    runAnalysis [("bays29_benchmark_results.csv", .csv tEx)] =
      (⟨[("bays29_benchmark_results.csv", .csv tEx)], [(0, tEx)], []⟩,
        some (Err.fileNotFound "brg180_benchmark_results.csv")) ∧
    lookupFS (runAnalysis [("bays29_benchmark_results.csv", .csv tEx)]).1.fs
        "bays29_benchmark.png"
      = lookupFS [("bays29_benchmark_results.csv", .csv tEx)] "bays29_benchmark.png" ∧
    analysisCmds = readCmds ++ (bays29Cmds ++ brg180Cmds) :=
  C9_inputs_read_before_any_write [("bays29_benchmark_results.csv", .csv tEx)] tEx rfl rfl

/-- Claim C3: for input tables with the five required columns, each saved
chart holds exactly two series per subplot (four in all), every series has
exactly one point per table row, its x-values are exactly the `Run` column
in the row order of the input table (no sorting), and its y-values have one
entry per row as well. -/
theorem C3_series_points_in_row_order
    (fs0 : List (String × FileData)) (tb tr : Table)
    (i1 i2 i3 i4 i5 j1 j2 j3 j4 j5 : Nat)
    (hb : lookupFS fs0 "bays29_benchmark_results.csv" = some (.csv tb))
    (hr : lookupFS fs0 "brg180_benchmark_results.csv" = some (.csv tr))
    (h1 : colIdx tb.header "Run" = some i1)
    (h2 : colIdx tb.header "2-opt Distance" = some i2)
    (h3 : colIdx tb.header "Swap Distance" = some i3)
    (h4 : colIdx tb.header "2-opt Time (µs)" = some i4)
    (h5 : colIdx tb.header "Swap Time (µs)" = some i5)
    (hh1 : colIdx tr.header "Run" = some j1)
    (hh2 : colIdx tr.header "2-opt Distance" = some j2)
    (hh3 : colIdx tr.header "Swap Distance" = some j3)
    (hh4 : colIdx tr.header "2-opt Time (µs)" = some j4)
    (hh5 : colIdx tr.header "Swap Time (µs)" = some j5) :
    (∃ gB, savedFig (runAnalysis fs0).1.fs "bays29_benchmark.png" = some gB ∧
      gB.sub1.series.length = 2 ∧ gB.sub2.series.length = 2 ∧
      ∀ sr ∈ gB.sub1.series ++ gB.sub2.series,
        sr.xs = colValsAt tb i1 ∧ sr.xs.length = tb.rows.length ∧
        sr.ys.length = tb.rows.length) ∧
    (∃ gR, savedFig (runAnalysis fs0).1.fs "brg180_benchmark.png" = some gR ∧
      gR.sub1.series.length = 2 ∧ gR.sub2.series.length = 2 ∧
      ∀ sr ∈ gR.sub1.series ++ gR.sub2.series,
        sr.xs = colValsAt tr j1 ∧ sr.xs.length = tr.rows.length ∧
        sr.ys.length = tr.rows.length) := by
  have key := runAnalysis_ok fs0 tb tr i1 i2 i3 i4 i5 j1 j2 j3 j4 j5 hb hr
    h1 h2 h3 h4 h5 hh1 hh2 hh3 hh4 hh5
  have hne : ("bays29_benchmark.png" : String) ≠ "brg180_benchmark.png" := by decide
  have e1 : lookupFS (runAnalysis fs0).1.fs "bays29_benchmark.png"
      = some (.png (bays29Fig tb i1 i2 i3 i4 i5)) := by
    rw [key]
    show lookupFS (updateFS _ _ _) _ = _
    rw [lookupFS_updateFS_ne _ _ _ _ hne]
    exact lookupFS_updateFS_self _ _ _
  have e2 : lookupFS (runAnalysis fs0).1.fs "brg180_benchmark.png"
      = some (.png (brg180Fig tr j1 j2 j3 j4 j5)) := by
    rw [key]
    exact lookupFS_updateFS_self _ _ _
  constructor
  · refine ⟨bays29Fig tb i1 i2 i3 i4 i5, by simp [savedFig, e1], rfl, rfl, ?_⟩
    intro sr hsr
    simp [bays29Fig, renderedFig] at hsr
    rcases hsr with h | h | h | h <;> subst h <;>
      exact ⟨rfl, by simp [colValsAt], by simp [colValsAt]⟩
  · refine ⟨brg180Fig tr j1 j2 j3 j4 j5, by simp [savedFig, e2], rfl, rfl, ?_⟩
    intro sr hsr
    simp [brg180Fig, renderedFig] at hsr
    rcases hsr with h | h | h | h <;> subst h <;>
      exact ⟨rfl, by simp [colValsAt], by simp [colValsAt]⟩

theorem C3_witness :
    (∃ gB, savedFig (runAnalysis (stdFS tEx tEx)).1.fs "bays29_benchmark.png" = some gB ∧
      gB.sub1.series.length = 2 ∧ gB.sub2.series.length = 2 ∧
      ∀ sr ∈ gB.sub1.series ++ gB.sub2.series,
        sr.xs = colValsAt tEx 0 ∧ sr.xs.length = tEx.rows.length ∧
        sr.ys.length = tEx.rows.length) ∧
    (∃ gR, savedFig (runAnalysis (stdFS tEx tEx)).1.fs "brg180_benchmark.png" = some gR ∧
      gR.sub1.series.length = 2 ∧ gR.sub2.series.length = 2 ∧
      ∀ sr ∈ gR.sub1.series ++ gR.sub2.series,
        sr.xs = colValsAt tEx 0 ∧ sr.xs.length = tEx.rows.length ∧
        sr.ys.length = tEx.rows.length) :=
  C3_series_points_in_row_order (stdFS tEx tEx) tEx tEx 0 1 2 3 4 0 1 2 3 4
    rfl rfl rfl rfl rfl rfl rfl rfl rfl rfl rfl rfl

/-- After a successful run, each output path holds the PNG of its
instance's figure. -/
theorem runAnalysis_lookup_pngs
    (fs0 : List (String × FileData)) (tb tr : Table)
    (i1 i2 i3 i4 i5 j1 j2 j3 j4 j5 : Nat)
    (hb : lookupFS fs0 "bays29_benchmark_results.csv" = some (.csv tb))
    (hr : lookupFS fs0 "brg180_benchmark_results.csv" = some (.csv tr))
    (h1 : colIdx tb.header "Run" = some i1)
    (h2 : colIdx tb.header "2-opt Distance" = some i2)
    (h3 : colIdx tb.header "Swap Distance" = some i3)
    (h4 : colIdx tb.header "2-opt Time (µs)" = some i4)
    (h5 : colIdx tb.header "Swap Time (µs)" = some i5)
    (hh1 : colIdx tr.header "Run" = some j1)
    (hh2 : colIdx tr.header "2-opt Distance" = some j2)
    (hh3 : colIdx tr.header "Swap Distance" = some j3)
    (hh4 : colIdx tr.header "2-opt Time (µs)" = some j4)
    (hh5 : colIdx tr.header "Swap Time (µs)" = some j5) :
    lookupFS (runAnalysis fs0).1.fs "bays29_benchmark.png"
      = some (.png (bays29Fig tb i1 i2 i3 i4 i5)) ∧
    lookupFS (runAnalysis fs0).1.fs "brg180_benchmark.png"
      = some (.png (brg180Fig tr j1 j2 j3 j4 j5)) := by
  have key := runAnalysis_ok fs0 tb tr i1 i2 i3 i4 i5 j1 j2 j3 j4 j5 hb hr
    h1 h2 h3 h4 h5 hh1 hh2 hh3 hh4 hh5
  constructor
  · rw [key]
    show lookupFS (updateFS _ _ _) _ = _
    rw [lookupFS_updateFS_ne _ _ _ _ (by decide : ("bays29_benchmark.png" : String) ≠ "brg180_benchmark.png")]
    exact lookupFS_updateFS_self _ _ _
  · rw [key]
    exact lookupFS_updateFS_self _ _ _

/-- Claim C6: input tables that have the five required columns but zero
data rows render successfully: the run reports no error, both PNGs are
produced, and every series of both charts is empty (empty plot areas). -/
theorem C6_empty_table_renders
    (fs0 : List (String × FileData)) (tb tr : Table)
    (i1 i2 i3 i4 i5 j1 j2 j3 j4 j5 : Nat)
    (hb : lookupFS fs0 "bays29_benchmark_results.csv" = some (.csv tb))
    (hr : lookupFS fs0 "brg180_benchmark_results.csv" = some (.csv tr))
    (h1 : colIdx tb.header "Run" = some i1)
    (h2 : colIdx tb.header "2-opt Distance" = some i2)
    (h3 : colIdx tb.header "Swap Distance" = some i3)
    (h4 : colIdx tb.header "2-opt Time (µs)" = some i4)
    (h5 : colIdx tb.header "Swap Time (µs)" = some i5)
    (hh1 : colIdx tr.header "Run" = some j1)
    (hh2 : colIdx tr.header "2-opt Distance" = some j2)
    (hh3 : colIdx tr.header "Swap Distance" = some j3)
    (hh4 : colIdx tr.header "2-opt Time (µs)" = some j4)
    (hh5 : colIdx tr.header "Swap Time (µs)" = some j5)
    (hbe : tb.rows = []) (hre : tr.rows = []) :
    (runAnalysis fs0).2 = none ∧
    (∃ gB, savedFig (runAnalysis fs0).1.fs "bays29_benchmark.png" = some gB ∧
      ∀ sr ∈ gB.sub1.series ++ gB.sub2.series, sr.xs = [] ∧ sr.ys = []) ∧
    (∃ gR, savedFig (runAnalysis fs0).1.fs "brg180_benchmark.png" = some gR ∧
      ∀ sr ∈ gR.sub1.series ++ gR.sub2.series, sr.xs = [] ∧ sr.ys = []) := by
  have key := runAnalysis_ok fs0 tb tr i1 i2 i3 i4 i5 j1 j2 j3 j4 j5 hb hr
    h1 h2 h3 h4 h5 hh1 hh2 hh3 hh4 hh5
  obtain ⟨e1, e2⟩ := runAnalysis_lookup_pngs fs0 tb tr i1 i2 i3 i4 i5 j1 j2 j3 j4 j5 hb hr
    h1 h2 h3 h4 h5 hh1 hh2 hh3 hh4 hh5
  refine ⟨by rw [key], ⟨bays29Fig tb i1 i2 i3 i4 i5, by simp [savedFig, e1], ?_⟩,
    ⟨brg180Fig tr j1 j2 j3 j4 j5, by simp [savedFig, e2], ?_⟩⟩
  · intro sr hsr
    simp [bays29Fig, renderedFig, colValsAt, hbe] at hsr
    rcases hsr with h | h | h | h <;> subst h <;> exact ⟨rfl, rfl⟩
  · intro sr hsr
    simp [brg180Fig, renderedFig, colValsAt, hre] at hsr
    rcases hsr with h | h | h | h <;> subst h <;> exact ⟨rfl, rfl⟩

theorem C6_witness :
    (runAnalysis (stdFS tEmpty tEmpty)).2 = none ∧
    (∃ gB, savedFig (runAnalysis (stdFS tEmpty tEmpty)).1.fs "bays29_benchmark.png" = some gB ∧
      ∀ sr ∈ gB.sub1.series ++ gB.sub2.series, sr.xs = [] ∧ sr.ys = []) ∧
    (∃ gR, savedFig (runAnalysis (stdFS tEmpty tEmpty)).1.fs "brg180_benchmark.png" = some gR ∧
      ∀ sr ∈ gR.sub1.series ++ gR.sub2.series, sr.xs = [] ∧ sr.ys = []) :=
  C6_empty_table_renders (stdFS tEmpty tEmpty) tEmpty tEmpty 0 1 2 3 4 0 1 2 3 4
    rfl rfl rfl rfl rfl rfl rfl rfl rfl rfl rfl rfl rfl rfl

/-- Claim C7: with both inputs present and carrying the five required
columns, the run succeeds and a PNG of the rendered figure sits at each
specified output path; running the script a second time on the directory
the first run produced yields the identical final state, overwriting each
output with identical content (and the run is a pure function of the input
directory, so two runs on identical input are identical).  The byte-level
validity of the PNG encoding itself is the plotting library's concern and
is outside this model. -/
theorem C7_success_writes_pngs_idempotent
    (fs0 : List (String × FileData)) (tb tr : Table)
    (i1 i2 i3 i4 i5 j1 j2 j3 j4 j5 : Nat)
    (hb : lookupFS fs0 "bays29_benchmark_results.csv" = some (.csv tb))
    (hr : lookupFS fs0 "brg180_benchmark_results.csv" = some (.csv tr))
    (h1 : colIdx tb.header "Run" = some i1)
    (h2 : colIdx tb.header "2-opt Distance" = some i2)
    (h3 : colIdx tb.header "Swap Distance" = some i3)
    (h4 : colIdx tb.header "2-opt Time (µs)" = some i4)
    (h5 : colIdx tb.header "Swap Time (µs)" = some i5)
    (hh1 : colIdx tr.header "Run" = some j1)
    (hh2 : colIdx tr.header "2-opt Distance" = some j2)
    (hh3 : colIdx tr.header "Swap Distance" = some j3)
    (hh4 : colIdx tr.header "2-opt Time (µs)" = some j4)
    (hh5 : colIdx tr.header "Swap Time (µs)" = some j5) :
    (runAnalysis fs0).2 = none ∧
    savedFig (runAnalysis fs0).1.fs "bays29_benchmark.png"
      = some (bays29Fig tb i1 i2 i3 i4 i5) ∧
    savedFig (runAnalysis fs0).1.fs "brg180_benchmark.png"
      = some (brg180Fig tr j1 j2 j3 j4 j5) ∧
    runAnalysis (runAnalysis fs0).1.fs = runAnalysis fs0 := by
  have key := runAnalysis_ok fs0 tb tr i1 i2 i3 i4 i5 j1 j2 j3 j4 j5 hb hr
    h1 h2 h3 h4 h5 hh1 hh2 hh3 hh4 hh5
  obtain ⟨e1, e2⟩ := runAnalysis_lookup_pngs fs0 tb tr i1 i2 i3 i4 i5 j1 j2 j3 j4 j5 hb hr
    h1 h2 h3 h4 h5 hh1 hh2 hh3 hh4 hh5
  have hfs : (runAnalysis fs0).1.fs
      = updateFS (updateFS fs0 "bays29_benchmark.png" (.png (bays29Fig tb i1 i2 i3 i4 i5)))
          "brg180_benchmark.png" (.png (brg180Fig tr j1 j2 j3 j4 j5)) := by
    rw [key]
  have hb2 : lookupFS (runAnalysis fs0).1.fs "bays29_benchmark_results.csv" = some (.csv tb) := by
    rw [hfs, lookupFS_updateFS_ne _ _ _ _
      (by decide : ("bays29_benchmark_results.csv" : String) ≠ "brg180_benchmark.png"),
      lookupFS_updateFS_ne _ _ _ _
      (by decide : ("bays29_benchmark_results.csv" : String) ≠ "bays29_benchmark.png")]
    exact hb
  have hr2 : lookupFS (runAnalysis fs0).1.fs "brg180_benchmark_results.csv" = some (.csv tr) := by
    rw [hfs, lookupFS_updateFS_ne _ _ _ _
      (by decide : ("brg180_benchmark_results.csv" : String) ≠ "brg180_benchmark.png"),
      lookupFS_updateFS_ne _ _ _ _
      (by decide : ("brg180_benchmark_results.csv" : String) ≠ "bays29_benchmark.png")]
    exact hr
  have key2 := runAnalysis_ok ((runAnalysis fs0).1.fs) tb tr i1 i2 i3 i4 i5 j1 j2 j3 j4 j5
    hb2 hr2 h1 h2 h3 h4 h5 hh1 hh2 hh3 hh4 hh5
  have hcollapse : updateFS (updateFS ((runAnalysis fs0).1.fs) "bays29_benchmark.png"
        (.png (bays29Fig tb i1 i2 i3 i4 i5))) "brg180_benchmark.png"
        (.png (brg180Fig tr j1 j2 j3 j4 j5))
      = (runAnalysis fs0).1.fs := by
    rw [updateFS_of_lookup_eq _ _ _ e1, updateFS_of_lookup_eq _ _ _ e2]
  refine ⟨by rw [key], by simp [savedFig, e1], by simp [savedFig, e2], ?_⟩
  rw [key2, hcollapse, key]

theorem C7_witness :
    (runAnalysis (stdFS tEx tEx)).2 = none ∧
    savedFig (runAnalysis (stdFS tEx tEx)).1.fs "bays29_benchmark.png"
      = some (bays29Fig tEx 0 1 2 3 4) ∧
    savedFig (runAnalysis (stdFS tEx tEx)).1.fs "brg180_benchmark.png"
      = some (brg180Fig tEx 0 1 2 3 4) ∧
    runAnalysis (runAnalysis (stdFS tEx tEx)).1.fs = runAnalysis (stdFS tEx tEx) :=
  C7_success_writes_pngs_idempotent (stdFS tEx tEx) tEx tEx 0 1 2 3 4 0 1 2 3 4
    rfl rfl rfl rfl rfl rfl rfl rfl rfl rfl rfl rfl

/-- Claim C8, counterexample: on the specification's own two-row example
input, the rendered bays29 figure's right subplot carries the y-axis label
"Time (µs)" (line 30 of the script), which is not the string "Time". -/
theorem C8_counterexample :
    (savedFig (runAnalysis (stdFS tEx tEx)).1.fs "bays29_benchmark.png").map
        (fun g => g.sub2.ylab) = some "Time (µs)" ∧
    (savedFig (runAnalysis (stdFS tEx tEx)).1.fs "bays29_benchmark.png").map
        (fun g => g.sub2.ylab) ≠ some "Time" := by
  decide

/-- Claim C8 as amended: in every rendered figure the right (time)
subplot's y-axis label is the string "Time (µs)". -/
theorem C8_time_ylabel_is_time_us
    (fs0 : List (String × FileData)) (tb tr : Table)
    (i1 i2 i3 i4 i5 j1 j2 j3 j4 j5 : Nat)
    (hb : lookupFS fs0 "bays29_benchmark_results.csv" = some (.csv tb))
    (hr : lookupFS fs0 "brg180_benchmark_results.csv" = some (.csv tr))
    (h1 : colIdx tb.header "Run" = some i1)
    (h2 : colIdx tb.header "2-opt Distance" = some i2)
    (h3 : colIdx tb.header "Swap Distance" = some i3)
    (h4 : colIdx tb.header "2-opt Time (µs)" = some i4)
    (h5 : colIdx tb.header "Swap Time (µs)" = some i5)
    (hh1 : colIdx tr.header "Run" = some j1)
    (hh2 : colIdx tr.header "2-opt Distance" = some j2)
    (hh3 : colIdx tr.header "Swap Distance" = some j3)
    (hh4 : colIdx tr.header "2-opt Time (µs)" = some j4)
    (hh5 : colIdx tr.header "Swap Time (µs)" = some j5) :
    (savedFig (runAnalysis fs0).1.fs "bays29_benchmark.png").map
        (fun g => g.sub2.ylab) = some "Time (µs)" ∧
    (savedFig (runAnalysis fs0).1.fs "brg180_benchmark.png").map
        (fun g => g.sub2.ylab) = some "Time (µs)" := by
  obtain ⟨e1, e2⟩ := runAnalysis_lookup_pngs fs0 tb tr i1 i2 i3 i4 i5 j1 j2 j3 j4 j5 hb hr
    h1 h2 h3 h4 h5 hh1 hh2 hh3 hh4 hh5
  constructor
  · simp [savedFig, e1, bays29Fig, renderedFig]
  · simp [savedFig, e2, brg180Fig, renderedFig]

theorem C8_witness :
    (savedFig (runAnalysis (stdFS tEx tEmpty)).1.fs "bays29_benchmark.png").map
        (fun g => g.sub2.ylab) = some "Time (µs)" ∧
    (savedFig (runAnalysis (stdFS tEx tEmpty)).1.fs "brg180_benchmark.png").map
        (fun g => g.sub2.ylab) = some "Time (µs)" :=
  C8_time_ylabel_is_time_us (stdFS tEx tEmpty) tEx tEmpty 0 1 2 3 4 0 1 2 3 4
    rfl rfl rfl rfl rfl rfl rfl rfl rfl rfl rfl rfl

/-- Claim C10: on a successful run the only filesystem entries the script
changes are the two output PNGs; every other path — the two input CSVs in
particular — holds afterwards exactly what it held before. -/
theorem C10_only_writes_two_pngs
    (fs0 : List (String × FileData)) (tb tr : Table)
    (i1 i2 i3 i4 i5 j1 j2 j3 j4 j5 : Nat)
    (hb : lookupFS fs0 "bays29_benchmark_results.csv" = some (.csv tb))
    (hr : lookupFS fs0 "brg180_benchmark_results.csv" = some (.csv tr))
    (h1 : colIdx tb.header "Run" = some i1)
    (h2 : colIdx tb.header "2-opt Distance" = some i2)
    (h3 : colIdx tb.header "Swap Distance" = some i3)
    (h4 : colIdx tb.header "2-opt Time (µs)" = some i4)
    (h5 : colIdx tb.header "Swap Time (µs)" = some i5)
    (hh1 : colIdx tr.header "Run" = some j1)
    (hh2 : colIdx tr.header "2-opt Distance" = some j2)
    (hh3 : colIdx tr.header "Swap Distance" = some j3)
    (hh4 : colIdx tr.header "2-opt Time (µs)" = some j4)
    (hh5 : colIdx tr.header "Swap Time (µs)" = some j5)
    (p : String)
    (hp1 : p ≠ "bays29_benchmark.png") (hp2 : p ≠ "brg180_benchmark.png") :
    (runAnalysis fs0).2 = none ∧
    lookupFS (runAnalysis fs0).1.fs p = lookupFS fs0 p ∧
    lookupFS (runAnalysis fs0).1.fs "bays29_benchmark_results.csv" = some (.csv tb) ∧
    lookupFS (runAnalysis fs0).1.fs "brg180_benchmark_results.csv" = some (.csv tr) := by
  have key := runAnalysis_ok fs0 tb tr i1 i2 i3 i4 i5 j1 j2 j3 j4 j5 hb hr
    h1 h2 h3 h4 h5 hh1 hh2 hh3 hh4 hh5
  refine ⟨by rw [key], ?_, ?_, ?_⟩
  · rw [key]
    show lookupFS (updateFS _ _ _) _ = _
    rw [lookupFS_updateFS_ne _ _ _ _ hp2, lookupFS_updateFS_ne _ _ _ _ hp1]
  · rw [key]
    show lookupFS (updateFS _ _ _) _ = _
    rw [lookupFS_updateFS_ne _ _ _ _
        (by decide : ("bays29_benchmark_results.csv" : String) ≠ "brg180_benchmark.png"),
      lookupFS_updateFS_ne _ _ _ _
        (by decide : ("bays29_benchmark_results.csv" : String) ≠ "bays29_benchmark.png")]
    exact hb
  · rw [key]
    show lookupFS (updateFS _ _ _) _ = _
    rw [lookupFS_updateFS_ne _ _ _ _
        (by decide : ("brg180_benchmark_results.csv" : String) ≠ "brg180_benchmark.png"),
      lookupFS_updateFS_ne _ _ _ _
        (by decide : ("brg180_benchmark_results.csv" : String) ≠ "bays29_benchmark.png")]
    exact hr

theorem C10_witness :
    (runAnalysis (stdFS tEx tEx)).2 = none ∧
    lookupFS (runAnalysis (stdFS tEx tEx)).1.fs "notes.txt" = lookupFS (stdFS tEx tEx) "notes.txt" ∧
    lookupFS (runAnalysis (stdFS tEx tEx)).1.fs "bays29_benchmark_results.csv" = some (.csv tEx) ∧
    lookupFS (runAnalysis (stdFS tEx tEx)).1.fs "brg180_benchmark_results.csv" = some (.csv tEx) :=
  C10_only_writes_two_pngs (stdFS tEx tEx) tEx tEx 0 1 2 3 4 0 1 2 3 4
    rfl rfl rfl rfl rfl rfl rfl rfl rfl rfl rfl rfl "notes.txt" (by decide) (by decide)

/-- Claim C5, counterexample: when the bays29 table lacks the `Swap
Distance` column, the error surfaces while the bays29 figure is open, and
— with no try/finally around the block — `plt.close()` never runs: a chart
instance outlives the failed render call. -/
theorem C5_counterexample :
    (runAnalysis (stdFS tNoSwapD tEx)).2 = some (Err.keyError "Swap Distance") ∧
    (runAnalysis (stdFS tNoSwapD tEx)).1.figs ≠ [] := by
  decide

/-- Claim C5 as amended: on renders that complete, drawing state is
released deterministically — after the bays29 render (reads plus first
block), and again at the end of a fully successful run, no figure remains
open.  On the error path the open figure is not explicitly released. -/
theorem C5_figures_released_on_success
    (fs0 : List (String × FileData)) (tb tr : Table)
    (i1 i2 i3 i4 i5 j1 j2 j3 j4 j5 : Nat)
    (hb : lookupFS fs0 "bays29_benchmark_results.csv" = some (.csv tb))
    (hr : lookupFS fs0 "brg180_benchmark_results.csv" = some (.csv tr))
    (h1 : colIdx tb.header "Run" = some i1)
    (h2 : colIdx tb.header "2-opt Distance" = some i2)
    (h3 : colIdx tb.header "Swap Distance" = some i3)
    (h4 : colIdx tb.header "2-opt Time (µs)" = some i4)
    (h5 : colIdx tb.header "Swap Time (µs)" = some i5)
    (hh1 : colIdx tr.header "Run" = some j1)
    (hh2 : colIdx tr.header "2-opt Distance" = some j2)
    (hh3 : colIdx tr.header "Swap Distance" = some j3)
    (hh4 : colIdx tr.header "2-opt Time (µs)" = some j4)
    (hh5 : colIdx tr.header "Swap Time (µs)" = some j5) :
    (runCmds ⟨fs0, [], []⟩ (readCmds ++ bays29Cmds)).1.figs = [] ∧
    (runCmds ⟨fs0, [], []⟩ (readCmds ++ bays29Cmds)).2 = none ∧
    (runAnalysis fs0).1.figs = [] ∧
    (runAnalysis fs0).2 = none := by
  have hread := runCmds_readCmds fs0 tb tr hb hr
  have hb29 : runCmds ⟨fs0, [(1, tr), (0, tb)], []⟩ bays29Cmds =
      (⟨updateFS fs0 "bays29_benchmark.png" (.png (bays29Fig tb i1 i2 i3 i4 i5)),
        [(1, tr), (0, tb)], []⟩, none) := by
    have h := runCmds_renderCmds ⟨fs0, [(1, tr), (0, tb)], []⟩ tb 0 i1 i2 i3 i4 i5
      "Distances for bays29 Instance" "Times for bays29 Instance" "bays29_benchmark.png"
      (by simp [lookupVar]) h1 h2 h3 h4 h5
    simpa [bays29Cmds, bays29Fig] using h
  have hpre := (runCmds_append_ok readCmds _ _ hread bays29Cmds).trans hb29
  have key := runAnalysis_ok fs0 tb tr i1 i2 i3 i4 i5 j1 j2 j3 j4 j5 hb hr
    h1 h2 h3 h4 h5 hh1 hh2 hh3 hh4 hh5
  exact ⟨by rw [hpre], by rw [hpre], by rw [key], by rw [key]⟩

theorem C5_witness :
    (runCmds ⟨stdFS tEx tEx, [], []⟩ (readCmds ++ bays29Cmds)).1.figs = [] ∧
    (runCmds ⟨stdFS tEx tEx, [], []⟩ (readCmds ++ bays29Cmds)).2 = none ∧
    (runAnalysis (stdFS tEx tEx)).1.figs = [] ∧
    (runAnalysis (stdFS tEx tEx)).2 = none :=
  C5_figures_released_on_success (stdFS tEx tEx) tEx tEx 0 1 2 3 4 0 1 2 3 4
    rfl rfl rfl rfl rfl rfl rfl rfl rfl rfl rfl rfl

/-- Claim C4: the script is the fixed sequence reads, then the bays29
block, then the brg180 block; if the bays29 render fails, the whole run
stops exactly there — the brg180 render never executes and in particular
the brg180 output file is untouched. -/
theorem C4_failure_in_first_render_stops_run
    (fs0 : List (String × FileData)) (s1 : St) (e : Err)
    (hread : runCmds ⟨fs0, [], []⟩ readCmds = (s1, none))
    (hfail : (runCmds s1 bays29Cmds).2 = some e) :
    analysisCmds = (readCmds ++ bays29Cmds) ++ brg180Cmds ∧
    runAnalysis fs0 = runCmds s1 bays29Cmds ∧
    lookupFS (runAnalysis fs0).1.fs "brg180_benchmark.png"
      = lookupFS fs0 "brg180_benchmark.png" := by
  have hsplit : runCmds s1 bays29Cmds = ((runCmds s1 bays29Cmds).1, some e) := by
    rw [← hfail]
  have h2 : runAnalysis fs0 = runCmds s1 bays29Cmds := by
    unfold runAnalysis analysisCmds
    rw [List.append_assoc]
    rw [runCmds_append_ok readCmds _ _ hread (bays29Cmds ++ brg180Cmds)]
    rw [runCmds_append_err bays29Cmds _ _ e hsplit brg180Cmds]
    exact hsplit.symm
  refine ⟨rfl, h2, ?_⟩
  rw [h2]
  have hframe1 : lookupFS (runCmds s1 bays29Cmds).1.fs "brg180_benchmark.png"
      = lookupFS s1.fs "brg180_benchmark.png" := by
    apply lookupFS_runCmds
    intro q hq
    simp [bays29Cmds, renderCmds] at hq
    subst hq
    decide
  have hs1 : s1 = (runCmds ⟨fs0, [], []⟩ readCmds).1 := by rw [hread]
  have hframe2 : lookupFS s1.fs "brg180_benchmark.png"
      = lookupFS fs0 "brg180_benchmark.png" := by
    rw [hs1]
    apply lookupFS_runCmds
    intro q hq
    simp [readCmds] at hq
  rw [hframe1, hframe2]

theorem C4_witness :
    analysisCmds = (readCmds ++ bays29Cmds) ++ brg180Cmds ∧
    runAnalysis (stdFS tNoSwapD tEx)
      = runCmds ⟨stdFS tNoSwapD tEx, [(1, tEx), (0, tNoSwapD)], []⟩ bays29Cmds ∧
    lookupFS (runAnalysis (stdFS tNoSwapD tEx)).1.fs "brg180_benchmark.png"
      = lookupFS (stdFS tNoSwapD tEx) "brg180_benchmark.png" :=
  C4_failure_in_first_render_stops_run (stdFS tNoSwapD tEx)
    ⟨stdFS tNoSwapD tEx, [(1, tEx), (0, tNoSwapD)], []⟩ (Err.keyError "Swap Distance")
    (by decide) (by decide)

/-- Claim C1, counterexample: with a well-formed bays29 table and a brg180
table lacking the `Swap Distance` column, the run does fail with a
missing-column error — but the bays29 PNG has already been written (line 36
runs before the brg180 column accesses), so it is false that no output
file is written for any instance. -/
theorem C1_counterexample :
    (runAnalysis (stdFS tEx tNoSwapD)).2 = some (Err.keyError "Swap Distance") ∧
    lookupFS (runAnalysis (stdFS tEx tNoSwapD)).1.fs "bays29_benchmark.png"
      = some (.png (bays29Fig tEx 0 1 2 3 4)) := by
  decide

/-- When the bays29 table itself misses at least one required column, the
run aborts inside the first render block with a `KeyError` naming an
absent column, and the filesystem is left exactly as it was: no output
PNG is written for the failing bays29 instance (nor for brg180). -/
theorem runAnalysis_bays29_malformed
    (fs0 : List (String × FileData)) (tb tr : Table)
    (hb : lookupFS fs0 "bays29_benchmark_results.csv" = some (.csv tb))
    (hr : lookupFS fs0 "brg180_benchmark_results.csv" = some (.csv tr))
    (hmb : colIdx tb.header "Run" = none ∨ colIdx tb.header "2-opt Distance" = none ∨
      colIdx tb.header "Swap Distance" = none ∨ colIdx tb.header "2-opt Time (µs)" = none ∨
      colIdx tb.header "Swap Time (µs)" = none) :
    (∃ c, (runAnalysis fs0).2 = some (Err.keyError c) ∧ colIdx tb.header c = none) ∧
    (runAnalysis fs0).1.fs = fs0 := by
  have hread := runCmds_readCmds fs0 tb tr hb hr
  obtain ⟨c, hce, hcn, hcfs⟩ := runCmds_renderCmds_err ⟨fs0, [(1, tr), (0, tb)], []⟩ tb 0
    "Distances for bays29 Instance" "Times for bays29 Instance" "bays29_benchmark.png"
    (by simp [lookupVar]) hmb
  have hce' : (runCmds ⟨fs0, [(1, tr), (0, tb)], []⟩ bays29Cmds).2
      = some (Err.keyError c) := hce
  have hcfs' : (runCmds ⟨fs0, [(1, tr), (0, tb)], []⟩ bays29Cmds).1.fs = fs0 := hcfs
  have hpair : runCmds ⟨fs0, [(1, tr), (0, tb)], []⟩ bays29Cmds
      = ((runCmds ⟨fs0, [(1, tr), (0, tb)], []⟩ bays29Cmds).1, some (Err.keyError c)) := by
    rw [← hce']
  have hAB : runCmds ⟨fs0, [], []⟩ (readCmds ++ bays29Cmds)
      = ((runCmds ⟨fs0, [(1, tr), (0, tb)], []⟩ bays29Cmds).1, some (Err.keyError c)) :=
    (runCmds_append_ok readCmds _ _ hread bays29Cmds).trans hpair
  have hall : runAnalysis fs0
      = ((runCmds ⟨fs0, [(1, tr), (0, tb)], []⟩ bays29Cmds).1, some (Err.keyError c)) := by
    unfold runAnalysis analysisCmds
    exact runCmds_append_err (readCmds ++ bays29Cmds) _ _ _ hAB brg180Cmds
  refine ⟨⟨c, by rw [hall], hcn⟩, ?_⟩
  rw [hall]
  exact hcfs'

/-- Claim C1 as amended: when an input table misses at least one required
column, the run aborts with a `KeyError` naming a column absent from the
first malformed table, and no output PNG is written for the failing
instance — but outputs of instances rendered before the failure are
written.  Concretely: the brg180 output path is never touched; if the
bays29 table is malformed the filesystem is left entirely unchanged (no
PNG at all), and otherwise the failure is brg180's, with the bays29 PNG
already rendered and saved. -/
theorem C1_missing_column_aborts_after_prior_output
    (fs0 : List (String × FileData)) (tb tr : Table)
    (hb : lookupFS fs0 "bays29_benchmark_results.csv" = some (.csv tb))
    (hr : lookupFS fs0 "brg180_benchmark_results.csv" = some (.csv tr))
    (hm : (colIdx tb.header "Run" = none ∨ colIdx tb.header "2-opt Distance" = none ∨
        colIdx tb.header "Swap Distance" = none ∨ colIdx tb.header "2-opt Time (µs)" = none ∨
        colIdx tb.header "Swap Time (µs)" = none) ∨
      (colIdx tr.header "Run" = none ∨ colIdx tr.header "2-opt Distance" = none ∨
        colIdx tr.header "Swap Distance" = none ∨ colIdx tr.header "2-opt Time (µs)" = none ∨
        colIdx tr.header "Swap Time (µs)" = none)) :
    lookupFS (runAnalysis fs0).1.fs "brg180_benchmark.png"
      = lookupFS fs0 "brg180_benchmark.png" ∧
    (((∃ c, (runAnalysis fs0).2 = some (Err.keyError c) ∧ colIdx tb.header c = none) ∧
        (runAnalysis fs0).1.fs = fs0) ∨
      ((∃ c, (runAnalysis fs0).2 = some (Err.keyError c) ∧ colIdx tr.header c = none) ∧
        ∃ i1 i2 i3 i4 i5, lookupFS (runAnalysis fs0).1.fs "bays29_benchmark.png"
          = some (.png (bays29Fig tb i1 i2 i3 i4 i5)))) := by
  rcases e1 : colIdx tb.header "Run" with _ | i1
  · have h := runAnalysis_bays29_malformed fs0 tb tr hb hr (Or.inl e1)
    exact ⟨by rw [h.2], Or.inl h⟩
  rcases e2 : colIdx tb.header "2-opt Distance" with _ | i2
  · have h := runAnalysis_bays29_malformed fs0 tb tr hb hr (Or.inr (Or.inl e2))
    exact ⟨by rw [h.2], Or.inl h⟩
  rcases e3 : colIdx tb.header "Swap Distance" with _ | i3
  · have h := runAnalysis_bays29_malformed fs0 tb tr hb hr (Or.inr (Or.inr (Or.inl e3)))
    exact ⟨by rw [h.2], Or.inl h⟩
  rcases e4 : colIdx tb.header "2-opt Time (µs)" with _ | i4
  · have h := runAnalysis_bays29_malformed fs0 tb tr hb hr
      (Or.inr (Or.inr (Or.inr (Or.inl e4))))
    exact ⟨by rw [h.2], Or.inl h⟩
  rcases e5 : colIdx tb.header "Swap Time (µs)" with _ | i5
  · have h := runAnalysis_bays29_malformed fs0 tb tr hb hr
      (Or.inr (Or.inr (Or.inr (Or.inr e5))))
    exact ⟨by rw [h.2], Or.inl h⟩
  have hmr : colIdx tr.header "Run" = none ∨ colIdx tr.header "2-opt Distance" = none ∨
      colIdx tr.header "Swap Distance" = none ∨ colIdx tr.header "2-opt Time (µs)" = none ∨
      colIdx tr.header "Swap Time (µs)" = none := by
    rcases hm with hmb | hmr
    · rcases hmb with h | h | h | h | h <;> simp [e1, e2, e3, e4, e5] at h
    · exact hmr
  have hread := runCmds_readCmds fs0 tb tr hb hr
  have hb29 : runCmds ⟨fs0, [(1, tr), (0, tb)], []⟩ bays29Cmds =
      (⟨updateFS fs0 "bays29_benchmark.png" (.png (bays29Fig tb i1 i2 i3 i4 i5)),
        [(1, tr), (0, tb)], []⟩, none) := by
    have h := runCmds_renderCmds ⟨fs0, [(1, tr), (0, tb)], []⟩ tb 0 i1 i2 i3 i4 i5
      "Distances for bays29 Instance" "Times for bays29 Instance" "bays29_benchmark.png"
      (by simp [lookupVar]) e1 e2 e3 e4 e5
    simpa [bays29Cmds, bays29Fig] using h
  have hpre := (runCmds_append_ok readCmds _ _ hread bays29Cmds).trans hb29
  have hall : runAnalysis fs0 = runCmds
      ⟨updateFS fs0 "bays29_benchmark.png" (.png (bays29Fig tb i1 i2 i3 i4 i5)),
        [(1, tr), (0, tb)], []⟩ brg180Cmds := by
    unfold runAnalysis analysisCmds
    exact runCmds_append_ok (readCmds ++ bays29Cmds) _ _ hpre brg180Cmds
  obtain ⟨c, hce, hcn, hcfs⟩ := runCmds_renderCmds_err
    ⟨updateFS fs0 "bays29_benchmark.png" (.png (bays29Fig tb i1 i2 i3 i4 i5)),
      [(1, tr), (0, tb)], []⟩ tr 1
    "Distances for brg180 Instance" "Times for brg180 Instance" "brg180_benchmark.png"
    (by simp [lookupVar]) hmr
  have hce' : (runCmds ⟨updateFS fs0 "bays29_benchmark.png"
        (.png (bays29Fig tb i1 i2 i3 i4 i5)), [(1, tr), (0, tb)], []⟩ brg180Cmds).2
      = some (Err.keyError c) := hce
  have hcfs' : (runCmds ⟨updateFS fs0 "bays29_benchmark.png"
        (.png (bays29Fig tb i1 i2 i3 i4 i5)), [(1, tr), (0, tb)], []⟩ brg180Cmds).1.fs
      = updateFS fs0 "bays29_benchmark.png" (.png (bays29Fig tb i1 i2 i3 i4 i5)) := hcfs
  refine ⟨?_, Or.inr ⟨⟨c, ?_, hcn⟩, i1, i2, i3, i4, i5, ?_⟩⟩
  · rw [hall, hcfs']
    exact lookupFS_updateFS_ne _ _ _ _
      (by decide : ("brg180_benchmark.png" : String) ≠ "bays29_benchmark.png")
  · rw [hall]
    exact hce'
  · rw [hall, hcfs']
    exact lookupFS_updateFS_self _ _ _

theorem C1_witness :
    lookupFS (runAnalysis (stdFS tEx tNoSwapD)).1.fs "brg180_benchmark.png"
      = lookupFS (stdFS tEx tNoSwapD) "brg180_benchmark.png" ∧
    (((∃ c, (runAnalysis (stdFS tEx tNoSwapD)).2 = some (Err.keyError c) ∧
        colIdx tEx.header c = none) ∧
        (runAnalysis (stdFS tEx tNoSwapD)).1.fs = stdFS tEx tNoSwapD) ∨
      ((∃ c, (runAnalysis (stdFS tEx tNoSwapD)).2 = some (Err.keyError c) ∧
        colIdx tNoSwapD.header c = none) ∧
        ∃ i1 i2 i3 i4 i5,
          lookupFS (runAnalysis (stdFS tEx tNoSwapD)).1.fs "bays29_benchmark.png"
            = some (.png (bays29Fig tEx i1 i2 i3 i4 i5)))) :=
  C1_missing_column_aborts_after_prior_output (stdFS tEx tNoSwapD) tEx tNoSwapD
    rfl rfl (Or.inr (Or.inr (Or.inr (Or.inl rfl))))
